import Mathlib

/-!
Verification of the gemsfun-sdk bonding-curve pricing engine.

The definitions below are a shallow embedding of the TypeScript source:
the pure pricing helpers `calculateTokensForSol` / `calculateSolForTokens`
(the validating variant of `utils/helpers.ts`), the slippage-bound
computations of `clients/gemsfun.ts` (`buyCoinWithSol` / `sellCoin`), and
the parameter validators of the same client.  bn.js `BN` values are
arbitrary-precision signed integers, embedded as `Int`; `BN.div` divides
sign-magnitude, i.e. truncates toward zero, embedded as `Int.tdiv`.
Errors thrown by the source are embedded as `Except String` with the
source's exact messages (including the wrapping prefix added by the
`catch` blocks).
-/

/-- `PERCENTAGE_DENOMINATOR` from `utils/constants.ts`. -/
def PERCENTAGE_DENOMINATOR : Int := 10000

/-- bn.js `BN.div`: sign-magnitude bignum division, truncating toward zero. -/
def bnDiv (a b : Int) : Int := a.tdiv b

/-- `BondingCurveState` from `utils/helpers.ts` (on-chain `u64` reserves). -/
structure BondingCurveState where
  reserveSol : Int
  reserveToken : Int
  completed : Bool
  deriving DecidableEq

/-- `MarketCapState` from `utils/helpers.ts`. -/
structure MarketCapState where
  defaultTotalSupply : Int
  defaultTokenReserves : Int
  defaultTokenLiquidity : Int
  deriving DecidableEq

/-- Result record of `calculateTokensForSol`. -/
structure TokensForSolResult where
  tokenAmount : Int
  solNeeded : Int
  fee : Int
  solAfterFee : Int
  deriving DecidableEq

/-- Result record of `calculateSolForTokens`. -/
structure SolForTokensResult where
  solAmount : Int
  fee : Int
  solAfterFee : Int
  deriving DecidableEq

/-- Buy error: message thrown when `bondingCurve.completed`, as re-wrapped by
the surrounding `catch`. -/
def tokenCalcCompletedMsg : String :=
  "Token calculation failed: Bonding curve is completed, cannot buy more tokens"

/-- Buy error: division-by-zero guard message. -/
def tokenCalcDivZeroMsg : String :=
  "Token calculation failed: Invalid calculation: division by zero"

/-- Buy error: message when the clamped token amount is not positive. -/
def tokenCalcNoTokensMsg : String :=
  "Token calculation failed: No tokens available for purchase"

/-- Sell error: message thrown when `bondingCurve.completed`. -/
def solCalcCompletedMsg : String :=
  "SOL calculation failed: Bonding curve is completed, cannot sell tokens"

/-- Sell error: non-positive input amount message. -/
def solCalcNonPositiveMsg : String :=
  "SOL calculation failed: Token amount must be greater than 0"

/-- Sell error: message when selling more than the curve's token reserve. -/
def solCalcInsufficientMsg : String :=
  "SOL calculation failed: Insufficient tokens in bonding curve"

/-- Sell error: division-by-zero guard message. -/
def solCalcDivZeroMsg : String :=
  "SOL calculation failed: Invalid calculation: division by zero"

/-- Sell error: message when the SOL output after fee is not positive. -/
def solCalcNonPositiveOutMsg : String :=
  "SOL calculation failed: SOL output after fee must be greater than 0"

/-- The constant-product step of the buy computation (`utils/helpers.ts`):
`k = reserveSol * reserveToken`, `newSolReserve = reserveSol + solAfterFee`,
`newTokenReserve = k / newSolReserve`, raw output
`tokenAmount = reserveToken - newTokenReserve`. -/
def tokensForSolRaw (bondingCurve : BondingCurveState) (solAfterFee : Int) : Int :=
  let k := bondingCurve.reserveSol * bondingCurve.reserveToken
  let newSolReserve := bondingCurve.reserveSol + solAfterFee
  let newTokenReserve := bnDiv k newSolReserve
  bondingCurve.reserveToken - newTokenReserve

/-- `tokenLeft` from `calculateTokensForSol`: the purchasable supply,
`reserveToken - (defaultTokenReserves - defaultTotalSupply) - defaultTokenLiquidity`. -/
def tokenLeft (bondingCurve : BondingCurveState) (marketCap : MarketCapState) : Int :=
  bondingCurve.reserveToken -
    (marketCap.defaultTokenReserves - marketCap.defaultTotalSupply) -
    marketCap.defaultTokenLiquidity

/-- `calculateTokensForSol` (buy quote) from `utils/helpers.ts`, validating
variant: fee is removed from the SOL input first, the completed flag and the
zero denominator are rejected, the constant-product output is clamped by
`tokenLeft`, and a non-positive clamped amount is rejected. -/
def calculateTokensForSol (solAmount : Int) (bondingCurve : BondingCurveState)
    (marketCap : MarketCapState) (feePercent : Int) :
    Except String TokensForSolResult :=
  let feeAmount := bnDiv (solAmount * feePercent) PERCENTAGE_DENOMINATOR
  let solAfterFee := solAmount - feeAmount
  if bondingCurve.completed then
    .error tokenCalcCompletedMsg
  else if bondingCurve.reserveSol + solAfterFee = 0 then
    .error tokenCalcDivZeroMsg
  else
    let tokenAmount := tokensForSolRaw bondingCurve solAfterFee
    let finalTokenAmount := min tokenAmount (tokenLeft bondingCurve marketCap)
    if finalTokenAmount ≤ 0 then
      .error tokenCalcNoTokensMsg
    else
      .ok ⟨finalTokenAmount, solAmount, feeAmount, solAfterFee⟩

/-- `calculateSolForTokens` (sell quote) from `utils/helpers.ts`, validating
variant: the completed flag, non-positive input, oversized input and zero
denominator are rejected, the constant-product output is computed, the fee is
removed from the SOL output afterwards, and a non-positive net output is
rejected. -/
def calculateSolForTokens (tokenAmount : Int) (bondingCurve : BondingCurveState)
    (feePercent : Int) : Except String SolForTokensResult :=
  if bondingCurve.completed then
    .error solCalcCompletedMsg
  else if tokenAmount ≤ 0 then
    .error solCalcNonPositiveMsg
  else if bondingCurve.reserveToken < tokenAmount then
    .error solCalcInsufficientMsg
  else if bondingCurve.reserveToken + tokenAmount = 0 then
    .error solCalcDivZeroMsg
  else
    let k := bondingCurve.reserveSol * bondingCurve.reserveToken
    let newTokenReserve := bondingCurve.reserveToken + tokenAmount
    let newSolReserve := bnDiv k newTokenReserve
    let solAmount := bondingCurve.reserveSol - newSolReserve
    let feeAmount := bnDiv (solAmount * feePercent) PERCENTAGE_DENOMINATOR
    let solAfterFee := solAmount - feeAmount
    if solAfterFee ≤ 0 then
      .error solCalcNonPositiveOutMsg
    else
      .ok ⟨solAmount, feeAmount, solAfterFee⟩

/-- `params.slippage || 500` from `clients/gemsfun.ts`: the JS `||` falls back
to the default 500 both when `slippage` is absent and when it is `0`. -/
def resolveSlippage (slippage : Option Int) : Int :=
  match slippage with
  | none => 500
  | some v => if v = 0 then 500 else v

/-- `maxSolCost` from `buyCoinWithSol` (`clients/gemsfun.ts`):
`solAmount * (10000 + slippage) / 10000` with bn.js division. -/
def maxSolCost (solAmount : Int) (slippage : Option Int) : Int :=
  bnDiv (solAmount * (10000 + resolveSlippage slippage)) 10000

/-- `minSolOutput` from `sellCoin` (`clients/gemsfun.ts`):
`solAfterFee * (10000 - slippage) / 10000` with bn.js division. -/
def minSolOutput (solAfterFee : Int) (slippage : Option Int) : Int :=
  bnDiv (solAfterFee * (10000 - resolveSlippage slippage)) 10000

/-- Numeric fields of `SellCoinParams` (addresses are outside the numeric
model). -/
structure SellCoinParams where
  tokenAmount : Int
  marketCapIndex : Int
  slippage : Option Int
  deriving DecidableEq

/-- Numeric fields of `BuyCoinWithSolParams`. -/
structure BuyCoinWithSolParams where
  solAmount : Int
  marketCapIndex : Int
  slippage : Option Int
  deriving DecidableEq

/-- Validator message for a non-positive token amount. -/
def tokenAmountPositiveMsg : String := "Token amount must be greater than 0"

/-- Validator message for an out-of-range market-cap index. -/
def marketCapIndexMsg : String := "Market cap index must be 1, 2, or 3"

/-- Validator message for a non-positive SOL amount. -/
def solAmountPositiveMsg : String := "SOL amount must be greater than 0"

/-- Validator message for an out-of-range slippage. -/
def slippageRangeMsg : String := "Slippage must be between 0 and 10000 basis points"

/-- `validateSellCoinParams` from `clients/gemsfun.ts`: checks only the token
amount and the market-cap index; the slippage field is not examined. -/
def validateSellCoinParams (params : SellCoinParams) : Except String Unit :=
  if params.tokenAmount ≤ 0 then
    .error tokenAmountPositiveMsg
  else if params.marketCapIndex < 1 ∨ 3 < params.marketCapIndex then
    .error marketCapIndexMsg
  else
    .ok ()

/-- `validateBuyCoinWithSolParams` from `clients/gemsfun.ts`: the slippage
check is guarded by JS truthiness (`params.slippage && ...`), so an absent or
zero slippage skips the range check. -/
def validateBuyCoinWithSolParams (params : BuyCoinWithSolParams) :
    Except String Unit :=
  if params.solAmount ≤ 0 then
    .error solAmountPositiveMsg
  else if params.marketCapIndex < 1 ∨ 3 < params.marketCapIndex then
    .error marketCapIndexMsg
  else
    match params.slippage with
    | none => .ok ()
    | some v =>
      if v ≠ 0 ∧ (v < 0 ∨ 10000 < v) then .error slippageRangeMsg else .ok ()

/-- The spec's tier-1 style concrete curve: 30 SOL-equivalent units of quote
reserve, `1_073_000_000_000_000` base units, not finalized. -/
def specCurve : BondingCurveState :=
  ⟨30000000000, 1073000000000000, false⟩

/-- A market-cap configuration whose carve-out terms are all zero, so the
purchasable supply equals the full token reserve. -/
def zeroMarketCap : MarketCapState := ⟨0, 0, 0⟩

theorem calculateTokensForSol_ok {s f : Int} {c : BondingCurveState}
    {mc : MarketCapState} {r : TokensForSolResult}
    (h : calculateTokensForSol s c mc f = .ok r) :
    c.completed = false ∧
    c.reserveSol + (s - bnDiv (s * f) PERCENTAGE_DENOMINATOR) ≠ 0 ∧
    0 < r.tokenAmount ∧
    r.tokenAmount =
      min (tokensForSolRaw c (s - bnDiv (s * f) PERCENTAGE_DENOMINATOR))
        (tokenLeft c mc) ∧
    r.solNeeded = s ∧
    r.fee = bnDiv (s * f) PERCENTAGE_DENOMINATOR ∧
    r.solAfterFee = s - bnDiv (s * f) PERCENTAGE_DENOMINATOR := by
  simp only [calculateTokensForSol] at h
  split_ifs at h with h1 h2 h3
  injection h with h
  subst h
  exact ⟨by simpa using h1, h2, by simpa using lt_of_not_le h3, rfl, rfl, rfl, rfl⟩

theorem calculateSolForTokens_ok {amt f : Int} {c : BondingCurveState}
    {r : SolForTokensResult}
    (h : calculateSolForTokens amt c f = .ok r) :
    c.completed = false ∧
    0 < amt ∧
    amt ≤ c.reserveToken ∧
    r.solAmount =
      c.reserveSol - bnDiv (c.reserveSol * c.reserveToken) (c.reserveToken + amt) ∧
    r.fee = bnDiv (r.solAmount * f) PERCENTAGE_DENOMINATOR ∧
    r.solAfterFee = r.solAmount - r.fee ∧
    0 < r.solAfterFee := by
  simp only [calculateSolForTokens] at h
  split_ifs at h with h1 h2 h3 h4 h5
  injection h with h
  subst h
  exact ⟨by simpa using h1, lt_of_not_le h2, le_of_not_lt h3, rfl, rfl, rfl,
    by simpa using lt_of_not_le h5⟩

theorem ediv_le_ediv_of_denom_le {k b c : Int} (hk : 0 ≤ k) (hb : 0 < b)
    (hbc : b ≤ c) : k / c ≤ k / b := by
  rw [Int.le_ediv_iff_mul_le hb]
  calc k / c * b ≤ k / c * c :=
        mul_le_mul_of_nonneg_left hbc (Int.ediv_nonneg hk (by linarith))
    _ ≤ k := Int.ediv_mul_le k (by intro hc; omega)

/-- C1: on every successful buy quote the fee is `floor(quoteAmountIn * feeBps
/ 10000)`, the net input is `quoteAmountIn - fee`, and the token amount before
supply clamping is `reserveBase - floor(reserveQuote * reserveBase /
(reserveQuote + netIn))` (the first argument of the `min`). -/
theorem c1_buy_fee_and_curve_formula (s f : Int) (c : BondingCurveState)
    (mc : MarketCapState) (r : TokensForSolResult)
    (h : calculateTokensForSol s c mc f = .ok r) :
    r.fee = bnDiv (s * f) PERCENTAGE_DENOMINATOR ∧
    r.solAfterFee = s - r.fee ∧
    r.tokenAmount =
      min (c.reserveToken -
          bnDiv (c.reserveSol * c.reserveToken) (c.reserveSol + (s - r.fee)))
        (tokenLeft c mc) := by
  obtain ⟨-, -, -, hta, -, hfee, hsaf⟩ := calculateTokensForSol_ok h
  refine ⟨hfee, by rw [hsaf, hfee], ?_⟩
  rw [hta, hfee]
  rfl

/-- Concrete result of the spec scenario: spend 10_000_000 against the tier-1
curve at 100 bps gives fee 100_000 and net input 9_900_000. -/
def c1BuyResult : TokensForSolResult := ⟨353973188848, 10000000, 100000, 9900000⟩

/-- Witness for C1 at the spec's concrete scenario. -/
theorem c1_buy_fee_and_curve_formula_witness :
    c1BuyResult.fee = bnDiv (10000000 * 100) PERCENTAGE_DENOMINATOR ∧
    c1BuyResult.solAfterFee = 10000000 - c1BuyResult.fee ∧
    c1BuyResult.tokenAmount =
      min (specCurve.reserveToken -
          bnDiv (specCurve.reserveSol * specCurve.reserveToken)
            (specCurve.reserveSol + (10000000 - c1BuyResult.fee)))
        (tokenLeft specCurve zeroMarketCap) :=
  c1_buy_fee_and_curve_formula 10000000 100 specCurve zeroMarketCap c1BuyResult
    (by rfl)

/-- C2: on every successful sell quote the gross proceeds are
`reserveQuote - floor(reserveQuote * reserveBase / (reserveBase +
baseAmountIn))`, the fee is taken from those proceeds after the curve math,
and the returned amount is the proceeds minus the fee. -/
theorem c2_sell_fee_after_curve (amt f : Int) (c : BondingCurveState)
    (r : SolForTokensResult) (h : calculateSolForTokens amt c f = .ok r) :
    r.solAmount =
      c.reserveSol -
        bnDiv (c.reserveSol * c.reserveToken) (c.reserveToken + amt) ∧
    r.fee = bnDiv (r.solAmount * f) PERCENTAGE_DENOMINATOR ∧
    r.solAfterFee = r.solAmount - r.fee := by
  obtain ⟨-, -, -, h1, h2, h3, -⟩ := calculateSolForTokens_ok h
  exact ⟨h1, h2, h3⟩

/-- Concrete sell result: selling 35767 base units against the tier-1 curve. -/
def c2SellResult : SolForTokensResult := ⟨2, 0, 2⟩

/-- Witness for C2 at a concrete sell. -/
theorem c2_sell_fee_after_curve_witness :
    c2SellResult.solAmount =
      specCurve.reserveSol -
        bnDiv (specCurve.reserveSol * specCurve.reserveToken)
          (specCurve.reserveToken + 35767) ∧
    c2SellResult.fee =
      bnDiv (c2SellResult.solAmount * 100) PERCENTAGE_DENOMINATOR ∧
    c2SellResult.solAfterFee = c2SellResult.solAmount - c2SellResult.fee :=
  c2_sell_fee_after_curve 35767 100 specCurve c2SellResult (by rfl)

/-- C3: every successful buy quote returns `min(rawBaseOut, available)` where
`available = reserveBase - (reserveFloor - totalSupplyCap) -
liquidityReserve`, and whenever the raw curve output exceeds `available` the
returned amount is exactly `available`. -/
theorem c3_buy_supply_clamp (s f : Int) (c : BondingCurveState)
    (mc : MarketCapState) (r : TokensForSolResult)
    (h : calculateTokensForSol s c mc f = .ok r) :
    r.tokenAmount =
      min (tokensForSolRaw c (s - bnDiv (s * f) PERCENTAGE_DENOMINATOR))
        (c.reserveToken -
          (mc.defaultTokenReserves - mc.defaultTotalSupply) -
          mc.defaultTokenLiquidity) ∧
    (c.reserveToken - (mc.defaultTokenReserves - mc.defaultTotalSupply) -
          mc.defaultTokenLiquidity <
        tokensForSolRaw c (s - bnDiv (s * f) PERCENTAGE_DENOMINATOR) →
      r.tokenAmount =
        c.reserveToken - (mc.defaultTokenReserves - mc.defaultTotalSupply) -
          mc.defaultTokenLiquidity) := by
  obtain ⟨-, -, -, hta, -, -, -⟩ := calculateTokensForSol_ok h
  constructor
  · exact hta
  · intro hlt
    rw [hta]
    exact min_eq_right (le_of_lt hlt)

/-- A small curve and configuration where the clamp binds. -/
def clampCurve : BondingCurveState := ⟨100, 1000, false⟩

/-- Configuration whose carve-out leaves only 400 purchasable units. -/
def clampMarketCap : MarketCapState := ⟨0, 600, 0⟩

/-- The clamped result of buying with 100 quote units at 0 bps. -/
def c3BuyResult : TokensForSolResult := ⟨400, 100, 0, 100⟩

/-- Witness for C3 at a configuration where the raw output 500 exceeds the
available 400 and the returned amount is exactly 400. -/
theorem c3_buy_supply_clamp_witness :
    c3BuyResult.tokenAmount =
      min (tokensForSolRaw clampCurve (100 - bnDiv (100 * 0) PERCENTAGE_DENOMINATOR))
        (clampCurve.reserveToken -
          (clampMarketCap.defaultTokenReserves - clampMarketCap.defaultTotalSupply) -
          clampMarketCap.defaultTokenLiquidity) ∧
    (clampCurve.reserveToken -
          (clampMarketCap.defaultTokenReserves - clampMarketCap.defaultTotalSupply) -
          clampMarketCap.defaultTokenLiquidity <
        tokensForSolRaw clampCurve (100 - bnDiv (100 * 0) PERCENTAGE_DENOMINATOR) →
      c3BuyResult.tokenAmount =
        clampCurve.reserveToken -
          (clampMarketCap.defaultTokenReserves - clampMarketCap.defaultTotalSupply) -
          clampMarketCap.defaultTokenLiquidity) :=
  c3_buy_supply_clamp 100 0 clampCurve clampMarketCap c3BuyResult (by rfl)

/-- C4: a buy quote against a finalized (completed) curve always fails with
the curve-finalized error, regardless of the spend, fee rate or limits. -/
theorem c4_buy_rejects_finalized_curve (s f : Int) (c : BondingCurveState)
    (mc : MarketCapState) (h : c.completed = true) :
    calculateTokensForSol s c mc f = .error tokenCalcCompletedMsg := by
  simp [calculateTokensForSol, h]

/-- Witness for C4: a finalized copy of the tier-1 curve rejects a buy. -/
theorem c4_buy_rejects_finalized_curve_witness :
    calculateTokensForSol 5 ⟨30000000000, 1073000000000000, true⟩
      zeroMarketCap 100 = .error tokenCalcCompletedMsg :=
  c4_buy_rejects_finalized_curve 5 100 ⟨30000000000, 1073000000000000, true⟩
    zeroMarketCap rfl

/-- C5: a sell quote of more base units than the curve's token reserve fails
with the insufficient-reserve error (for a live curve with a nonnegative
reserve, as on-chain `u64` state guarantees). -/
theorem c5_sell_insufficient_reserve (amt f : Int) (c : BondingCurveState)
    (h1 : c.completed = false) (h2 : 0 ≤ c.reserveToken)
    (h3 : c.reserveToken < amt) :
    calculateSolForTokens amt c f = .error solCalcInsufficientMsg := by
  have hpos : ¬ amt ≤ 0 := not_le.mpr (lt_of_le_of_lt h2 h3)
  simp [calculateSolForTokens, h1, h3, hpos]

/-- Witness for C5: selling more than the tier-1 curve's base reserve. -/
theorem c5_sell_insufficient_reserve_witness :
    calculateSolForTokens 2000000000000000 specCurve 100 =
      .error solCalcInsufficientMsg :=
  c5_sell_insufficient_reserve 2000000000000000 100 specCurve rfl
    (by decide) (by decide)

/-- C10: for a curve with positive quote reserve, nonnegative base reserve
and nonnegative net input, `floor(reserveQuote * reserveBase / (reserveQuote
+ netIn)) <= reserveBase`, so the raw buy output `reserveBase -
newTokenReserve` is never negative. -/
theorem c10_buy_raw_output_nonneg (c : BondingCurveState) (netIn : Int)
    (h1 : 0 < c.reserveSol) (h2 : 0 ≤ netIn) (h3 : 0 ≤ c.reserveToken) :
    bnDiv (c.reserveSol * c.reserveToken) (c.reserveSol + netIn) ≤
      c.reserveToken ∧
    0 ≤ tokensForSolRaw c netIn := by
  have hk : 0 ≤ c.reserveSol * c.reserveToken := mul_nonneg h1.le h3
  have hd : 0 < c.reserveSol + netIn := by linarith
  have hconv : bnDiv (c.reserveSol * c.reserveToken) (c.reserveSol + netIn) =
      c.reserveSol * c.reserveToken / (c.reserveSol + netIn) :=
    Int.tdiv_eq_ediv hk hd.le
  have hmain : c.reserveSol * c.reserveToken / (c.reserveSol + netIn) ≤
      c.reserveToken := by
    have h4 : c.reserveSol * c.reserveToken / (c.reserveSol + netIn) ≤
        c.reserveSol * c.reserveToken / c.reserveSol :=
      ediv_le_ediv_of_denom_le hk h1 (by linarith)
    rwa [Int.mul_ediv_cancel_left _ (ne_of_gt h1)] at h4
  have hraw : tokensForSolRaw c netIn =
      c.reserveToken -
        bnDiv (c.reserveSol * c.reserveToken) (c.reserveSol + netIn) := rfl
  refine ⟨hconv ▸ hmain, ?_⟩
  rw [hraw, hconv]
  omega

/-- Witness for C10 at the spec scenario's curve and net input. -/
theorem c10_buy_raw_output_nonneg_witness :
    bnDiv (specCurve.reserveSol * specCurve.reserveToken)
        (specCurve.reserveSol + 9900000) ≤ specCurve.reserveToken ∧
    0 ≤ tokensForSolRaw specCurve 9900000 :=
  c10_buy_raw_output_nonneg specCurve 9900000 (by decide) (by decide) (by decide)

theorem resolveSlippage_bounds {v : Int} (h0 : 0 ≤ v) (h1 : v ≤ 10000) :
    0 ≤ resolveSlippage (some v) ∧ resolveSlippage (some v) ≤ 10000 := by
  simp only [resolveSlippage]
  split_ifs <;> omega

theorem le_mul_add_ediv (a s : Int) (ha : 0 ≤ a) (hs : 0 ≤ s) :
    a ≤ a * (10000 + s) / 10000 := by
  calc a = a * 10000 / 10000 := (Int.mul_ediv_cancel a (by norm_num)).symm
    _ ≤ a * (10000 + s) / 10000 :=
        Int.ediv_le_ediv (by norm_num) (by nlinarith)

theorem mul_sub_ediv_le (a s : Int) (ha : 0 ≤ a) (hs : 0 ≤ s) :
    a * (10000 - s) / 10000 ≤ a := by
  calc a * (10000 - s) / 10000 ≤ a * 10000 / 10000 :=
        Int.ediv_le_ediv (by norm_num) (by nlinarith)
    _ = a := Int.mul_ediv_cancel a (by norm_num)

/-- C6 counterexample: at `slippageBps = 0` the `params.slippage || 500`
fallback replaces the zero with the default 500, so for quoted amount 10000
the buy bound is 10500 and the sell bound is 9500 — neither equals the quoted
amount, refuting the claim's zero-slippage equality. -/
theorem c6_counterexample_slippage_zero :
    maxSolCost 10000 (some 0) = 10500 ∧ minSolOutput 10000 (some 0) = 9500 ∧
    maxSolCost 10000 (some 0) ≠ 10000 ∧
    minSolOutput 10000 (some 0) ≠ 10000 :=
  ⟨by rfl, by rfl, by decide, by decide⟩

/-- C6 amended: for every quoted amount `a ≥ 0` and `slippageBps ∈ [0,
10000]` the buy bound is `≥ a` and the sell bound is `≤ a`; but slippage 0 is
replaced by the default 500, so the bounds at 0 coincide with the 500-bps
bounds instead of equalling the quoted amount. -/
theorem c6_slippage_bound_direction (a v : Int) (ha : 0 ≤ a) (h0 : 0 ≤ v)
    (h1 : v ≤ 10000) :
    a ≤ maxSolCost a (some v) ∧ minSolOutput a (some v) ≤ a ∧
    maxSolCost a (some 0) = maxSolCost a (some 500) ∧
    minSolOutput a (some 0) = minSolOutput a (some 500) := by
  obtain ⟨hs0, hs1⟩ := resolveSlippage_bounds h0 h1
  have hb : maxSolCost a (some v) =
      a * (10000 + resolveSlippage (some v)) / 10000 :=
    Int.tdiv_eq_ediv (mul_nonneg ha (by linarith)) (by norm_num)
  have hse : minSolOutput a (some v) =
      a * (10000 - resolveSlippage (some v)) / 10000 :=
    Int.tdiv_eq_ediv (mul_nonneg ha (by linarith)) (by norm_num)
  refine ⟨?_, ?_, rfl, rfl⟩
  · rw [hb]
    exact le_mul_add_ediv a _ ha hs0
  · rw [hse]
    exact mul_sub_ediv_le a _ ha hs0

/-- Witness for the amended C6 at amount 10000000 and slippage 250 bps. -/
theorem c6_slippage_bound_direction_witness :
    (10000000 : Int) ≤ maxSolCost 10000000 (some 250) ∧
    minSolOutput 10000000 (some 250) ≤ 10000000 ∧
    maxSolCost 10000000 (some 0) = maxSolCost 10000000 (some 500) ∧
    minSolOutput 10000000 (some 0) = minSolOutput 10000000 (some 500) :=
  c6_slippage_bound_direction 10000000 250 (by decide) (by decide) (by decide)

/-- C7 counterexample: for quoted amount 1 and slippage 1 bps the buy bound
is `floor(1 * 10001 / 10000) = 1`, not the claimed rounded-up value
`ceil(1 * 10001 / 10000) = (1 * 10001 + 9999) / 10000 = 2`. -/
theorem c7_counterexample_buy_not_rounded_up :
    maxSolCost 1 (some 1) = 1 ∧
    bnDiv (1 * (10000 + resolveSlippage (some 1)) + 9999) 10000 = 2 ∧
    maxSolCost 1 (some 1) ≠
      bnDiv (1 * (10000 + resolveSlippage (some 1)) + 9999) 10000 :=
  ⟨by rfl, by rfl, by decide⟩

/-- C7 amended: both bounds are rounded DOWN: each bound `q` satisfies
`q * 10000 ≤ a * (10000 ± slippage) < (q + 1) * 10000`, i.e. the buy bound is
the floor of `a * (10000 + slippage) / 10000` (not its ceiling) and the sell
bound is the floor of `a * (10000 - slippage) / 10000`. -/
theorem c7_slippage_bounds_round_down (a v : Int) (ha : 0 ≤ a) (h0 : 0 ≤ v)
    (h1 : v ≤ 10000) :
    maxSolCost a (some v) * 10000 ≤ a * (10000 + resolveSlippage (some v)) ∧
    a * (10000 + resolveSlippage (some v)) <
      (maxSolCost a (some v) + 1) * 10000 ∧
    minSolOutput a (some v) * 10000 ≤
      a * (10000 - resolveSlippage (some v)) ∧
    a * (10000 - resolveSlippage (some v)) <
      (minSolOutput a (some v) + 1) * 10000 := by
  obtain ⟨hs0, hs1⟩ := resolveSlippage_bounds h0 h1
  have hb : maxSolCost a (some v) =
      a * (10000 + resolveSlippage (some v)) / 10000 :=
    Int.tdiv_eq_ediv (mul_nonneg ha (by linarith)) (by norm_num)
  have hse : minSolOutput a (some v) =
      a * (10000 - resolveSlippage (some v)) / 10000 :=
    Int.tdiv_eq_ediv (mul_nonneg ha (by linarith)) (by norm_num)
  rw [hb, hse]
  exact ⟨Int.ediv_mul_le _ (by norm_num),
    Int.lt_ediv_add_one_mul_self _ (by norm_num),
    Int.ediv_mul_le _ (by norm_num),
    Int.lt_ediv_add_one_mul_self _ (by norm_num)⟩

/-- Witness for the amended C7 at amount 10000000 and slippage 500 bps. -/
theorem c7_slippage_bounds_round_down_witness :
    maxSolCost 10000000 (some 500) * 10000 ≤
      10000000 * (10000 + resolveSlippage (some 500)) ∧
    10000000 * (10000 + resolveSlippage (some 500)) <
      (maxSolCost 10000000 (some 500) + 1) * 10000 ∧
    minSolOutput 10000000 (some 500) * 10000 ≤
      10000000 * (10000 - resolveSlippage (some 500)) ∧
    10000000 * (10000 - resolveSlippage (some 500)) <
      (minSolOutput 10000000 (some 500) + 1) * 10000 :=
  c7_slippage_bounds_round_down 10000000 500 (by decide) (by decide) (by decide)

/-- C8: slippage 10001 is rejected by the buy-path validator but accepted by
the sell-path validator, which never examines the slippage field — the sell
path performs no slippage validation, contrary to the claim (and to the
repository's own documentation). -/
theorem c8_sell_path_skips_slippage_validation :
    validateBuyCoinWithSolParams ⟨1, 1, some 10001⟩ = .error slippageRangeMsg ∧
    validateSellCoinParams ⟨1, 1, some 10001⟩ = .ok () :=
  ⟨by rfl, by rfl⟩

/-- A curve whose quote reserve exceeds its base reserve. -/
def invertedCurve : BondingCurveState := ⟨100, 1, false⟩

/-- C9 counterexample, two failure modes of the unconditional strict-loss
claim.  First: buying with 1 quote unit on the tier-1 curve at 100 bps
succeeds (the fee rounds to 0, 35767 base units out), and selling those
35767 units against the same pre-trade state returns 2 quote units after fee
— strictly MORE than the original spend; so a zero (rounded-away) fee breaks
the claim.  Second: on a curve with `reserveQuote > reserveBase` (100 vs 1),
buying with 3 quote units at 7000 bps succeeds with fee 2, and selling the
single base unit bought returns 15 after fee — again more than the spend; so
even a positive fee does not save the claim outside
`reserveQuote ≤ reserveBase`. -/
theorem c9_counterexample_roundtrip_gains :
    (calculateTokensForSol 1 specCurve zeroMarketCap 100 =
        .ok ⟨35767, 1, 0, 1⟩ ∧
      calculateSolForTokens 35767 specCurve 100 = .ok ⟨2, 0, 2⟩ ∧
      ¬ ((2 : Int) < 1)) ∧
    (calculateTokensForSol 3 invertedCurve zeroMarketCap 7000 =
        .ok ⟨1, 3, 2, 1⟩ ∧
      calculateSolForTokens 1 invertedCurve 7000 = .ok ⟨50, 35, 15⟩ ∧
      ¬ ((15 : Int) < 3)) :=
  ⟨⟨by rfl, by rfl, by decide⟩, ⟨by rfl, by rfl, by decide⟩⟩

theorem bnDiv_eq_ediv {a b : Int} (ha : 0 ≤ a) (hb : 0 ≤ b) :
    bnDiv a b = a / b :=
  Int.tdiv_eq_ediv ha hb

theorem roundtrip_core (rq rb n amt : Int)
    (hrq : 1 ≤ rq) (hrb : rq ≤ rb) (hn : 0 ≤ n)
    (hamt1 : 1 ≤ amt) (hamt2 : amt ≤ rb - rq * rb / (rq + n)) :
    rq - rq * rb / (rb + amt) ≤ n + 1 := by
  have hrb0 : (0:Int) < rb := by omega
  have hk : (0:Int) ≤ rq * rb := mul_nonneg (by omega) (by omega)
  have hdq : (0:Int) < rq + n := by omega
  have hA0 : 0 ≤ rq * rb / (rq + n) := Int.ediv_nonneg hk hdq.le
  have hAle : rq * rb / (rq + n) ≤ rb := by
    have h := ediv_le_ediv_of_denom_le hk (show (0:Int) < rq by omega)
      (show rq ≤ rq + n by omega)
    rwa [Int.mul_ediv_cancel_left rb (show rq ≠ 0 by omega)] at h
  have hden : (0:Int) < rb + amt := by omega
  have hden2 : rb + amt ≤ 2 * rb - rq * rb / (rq + n) := by linarith
  have hB1 : rq * rb / (2 * rb - rq * rb / (rq + n)) ≤ rq * rb / (rb + amt) :=
    ediv_le_ediv_of_denom_le hk hden hden2
  have hstep2 : rq - n - 1 ≤ rq * rb / (2 * rb - rq * rb / (rq + n)) := by
    rcases le_or_lt (rq - n - 1) 0 with hP | hP
    · exact le_trans hP (Int.ediv_nonneg hk (by linarith))
    · rw [Int.le_ediv_iff_mul_le (show (0:Int) < 2 * rb - rq * rb / (rq + n) by linarith)]
      have hkey : rq * rb < (rq * rb / (rq + n) + 1) * (rq + n) :=
        Int.lt_ediv_add_one_mul_self (rq * rb) hdq
      have hkey2 : rq * rb - rq - n + 1 ≤ rq * rb / (rq + n) * (rq + n) := by
        nlinarith [hkey]
      have hmm : (rq - n - 1) * (rq * rb - rq - n + 1) ≤
          (rq - n - 1) * (rq * rb / (rq + n) * (rq + n)) :=
        mul_le_mul_of_nonneg_left hkey2 (by omega)
      have hmul : (rq - n - 1) * (2 * rb - rq * rb / (rq + n)) * (rq + n) ≤
          rq * rb * (rq + n) := by
        nlinarith [hmm, sq_nonneg n, sq_nonneg (rq - 1),
          mul_le_mul_of_nonneg_left hrb (show (0:Int) ≤ rq by omega),
          mul_nonneg (mul_nonneg hrb0.le hn) hn, mul_nonneg hrb0.le hn]
      exact le_of_mul_le_mul_right hmul hdq
  have := le_trans hstep2 hB1
  linarith

/-- C9 amended: for curves with `0 < reserveQuote ≤ reserveBase` and a buy
whose fee is at least 1 quote unit, selling the exact `counterAmount` of a
successful buy quote against the same pre-trade state yields
`quoteOutAfterFee` strictly less than the original `quoteAmountIn`.  Both
hypotheses are forced by the counterexample: its first part shows a fee that
rounds to 0 lets the curve rounding favor the trader, and its second part
shows a curve with `reserveQuote > reserveBase` loses money even with a
positive fee.  The proof bounds the gross sell proceeds by `netIn + 1 ≤ s`,
and in the boundary case where they reach `s` exactly, the sell fee equals
the buy fee, which is at least 1. -/
theorem c9_roundtrip_loses_with_fee (s f : Int) (c : BondingCurveState)
    (mc : MarketCapState) (br : TokensForSolResult) (sr : SolForTokensResult)
    (hrq : 1 ≤ c.reserveSol) (hrb : c.reserveSol ≤ c.reserveToken)
    (hs : 0 ≤ s) (hf0 : 0 ≤ f) (hf : f ≤ 10000)
    (hfee : 1 ≤ bnDiv (s * f) PERCENTAGE_DENOMINATOR)
    (hbuy : calculateTokensForSol s c mc f = .ok br)
    (hsell : calculateSolForTokens br.tokenAmount c f = .ok sr) :
    sr.solAfterFee < s := by
  obtain ⟨-, -, hpos, hta, -, -, -⟩ := calculateTokensForSol_ok hbuy
  obtain ⟨-, -, -, hsol, hfee2, hsaf, -⟩ := calculateSolForTokens_ok hsell
  have hsf : 0 ≤ s * f := mul_nonneg hs hf0
  have hfee1e : bnDiv (s * f) PERCENTAGE_DENOMINATOR = s * f / 10000 :=
    bnDiv_eq_ediv hsf (by decide)
  have hfee1_le : bnDiv (s * f) PERCENTAGE_DENOMINATOR ≤ s := by
    rw [hfee1e]
    calc s * f / 10000 ≤ s * 10000 / 10000 :=
          Int.ediv_le_ediv (by norm_num) (by nlinarith)
      _ = s := Int.mul_ediv_cancel s (by norm_num)
  have hn : 0 ≤ s - bnDiv (s * f) PERCENTAGE_DENOMINATOR := by linarith
  have hrb0 : (0:Int) < c.reserveToken := by omega
  have hk : (0:Int) ≤ c.reserveSol * c.reserveToken :=
    mul_nonneg (by omega) (by omega)
  have hdq : (0:Int) <
      c.reserveSol + (s - bnDiv (s * f) PERCENTAGE_DENOMINATOR) := by
    linarith
  have hrawe : tokensForSolRaw c (s - bnDiv (s * f) PERCENTAGE_DENOMINATOR) =
      c.reserveToken - c.reserveSol * c.reserveToken /
        (c.reserveSol + (s - bnDiv (s * f) PERCENTAGE_DENOMINATOR)) := by
    show c.reserveToken - bnDiv (c.reserveSol * c.reserveToken)
        (c.reserveSol + (s - bnDiv (s * f) PERCENTAGE_DENOMINATOR)) = _
    rw [bnDiv_eq_ediv hk hdq.le]
  have hamt1 : 1 ≤ br.tokenAmount := hpos
  have hamt2 : br.tokenAmount ≤ c.reserveToken -
      c.reserveSol * c.reserveToken /
        (c.reserveSol + (s - bnDiv (s * f) PERCENTAGE_DENOMINATOR)) := by
    rw [← hrawe, hta]
    exact min_le_left _ _
  have hdenss : (0:Int) < c.reserveToken + br.tokenAmount := by linarith
  have hsole : sr.solAmount = c.reserveSol -
      c.reserveSol * c.reserveToken / (c.reserveToken + br.tokenAmount) := by
    rw [hsol, bnDiv_eq_ediv hk hdenss.le]
  have hcore : c.reserveSol -
      c.reserveSol * c.reserveToken / (c.reserveToken + br.tokenAmount) ≤
      (s - bnDiv (s * f) PERCENTAGE_DENOMINATOR) + 1 :=
    roundtrip_core c.reserveSol c.reserveToken
      (s - bnDiv (s * f) PERCENTAGE_DENOMINATOR) br.tokenAmount hrq hrb hn
      hamt1 hamt2
  have hsol0 : 0 ≤ sr.solAmount := by
    rw [hsole]
    have h := ediv_le_ediv_of_denom_le hk hrb0
      (show c.reserveToken ≤ c.reserveToken + br.tokenAmount by linarith)
    rw [Int.mul_ediv_cancel c.reserveSol
      (show c.reserveToken ≠ 0 by omega)] at h
    linarith
  have hfee2nn : 0 ≤ sr.fee := by
    rw [hfee2]
    exact Int.tdiv_nonneg (mul_nonneg hsol0 hf0) (by decide)
  have hsolle : sr.solAmount ≤ s := by
    rw [hsole]
    linarith [hcore, hfee]
  rcases lt_or_eq_of_le hsolle with hlt | heq
  · rw [hsaf]
    linarith [hfee2nn]
  · rw [hsaf, hfee2, heq]
    linarith [hfee]

/-- Concrete sell result of the round trip at the spec scenario. -/
def c9SellResult : SolForTokensResult := ⟨9893471, 98934, 9794537⟩

/-- Witness for the amended C9: spending 10_000_000 on the tier-1 curve at
100 bps buys 353973188848 base units; selling them back yields 9_794_537
after fee, strictly less than the 10_000_000 spent. -/
theorem c9_roundtrip_loses_with_fee_witness :
    c9SellResult.solAfterFee < 10000000 :=
  c9_roundtrip_loses_with_fee 10000000 100 specCurve zeroMarketCap
    c1BuyResult c9SellResult (by decide) (by decide) (by decide) (by decide)
    (by decide) (by decide) (by rfl) (by rfl)
